import Mathlib

/-!
Shallow embedding of the visualization sandbox of `src/api/visualization_handler.py`
and of the visualization branch of the `execute_query` agent tool of
`src/api/psql_agent.py`.

Modelling conventions: Python strings are Lean `String`, Python `bytes` are
`List Nat` (byte values), Python exceptions are the explicit error type `PyExc`,
and the filesystem / subprocess environment of one `execute_visualization` call
is an explicit `SandboxWorld` record together with a filesystem event trace.
Parsing of Python source into a syntax tree is not computable inside the
embedding, so every function that calls `ast.parse` takes the parser as an
explicit argument `parse : String -> Option PyModule` (`none` models a
`SyntaxError`); claims about "code containing construct X" are stated about
strings whose parse result contains the corresponding node.
-/

/-- The ASCII whitespace characters removed by Python `str.strip()`
(space, tab, newline, carriage return, vertical tab, form feed). -/
def pyWhitespace (c : Char) : Bool :=
  c == ' ' || c == '\t' || c == '\n' || c == '\x0d' || c == '\x0b' || c == '\x0c'

/-- Python `str.strip()`: remove leading and trailing whitespace. -/
def pyStrip (s : String) : String :=
  String.mk (((s.data.dropWhile pyWhitespace).reverse.dropWhile pyWhitespace).reverse)

/-- Value of a character in the standard base64 alphabet
(CPython `binascii` table `table_a2b_base64`). -/
def b64Val (c : Char) : Option Nat :=
  if 65 ≤ c.toNat ∧ c.toNat ≤ 90 then some (c.toNat - 65)
  else if 97 ≤ c.toNat ∧ c.toNat ≤ 122 then some (c.toNat - 97 + 26)
  else if 48 ≤ c.toNat ∧ c.toNat ≤ 57 then some (c.toNat - 48 + 52)
  else if c == '+' then some 62
  else if c == '/' then some 63
  else none

/-- A character that CPython `binascii.a2b_base64` (non-strict mode) does not
silently discard: a base64 alphabet character or the padding character. -/
def b64Relevant (c : Char) : Bool :=
  (b64Val c).isSome || c == '='

/-- The decoding loop of CPython `binascii.a2b_base64` in non-strict mode
(the mode used by `base64.b64decode(...)` with default arguments, which is what
`execute_visualization` calls on the child process stdout).  State: remaining
characters, position in the current 4-character quad (`quad_pos`), pending bits
(`leftchar`), number of padding characters seen in the current quad (`pads`),
and the output bytes accumulated in reverse.  Characters outside the alphabet
are discarded; a padding character completing a quad of 2 or 3 data characters
ends the decode successfully; reaching the end of input in the middle of a quad
is an error (`binascii.Error`). -/
def a2bGo : List Char → Nat → Nat → Nat → List Nat → Option (List Nat)
  | [], 0, _, _, acc => some acc.reverse
  | [], _ + 1, _, _, _ => none
  | c :: rest, qp, left, pads, acc =>
    if c == '=' then
      if 2 ≤ qp ∧ 4 ≤ qp + (pads + 1) then some acc.reverse
      else a2bGo rest qp left (if 2 ≤ qp then pads + 1 else pads) acc
    else
      match b64Val c with
      | none => a2bGo rest qp left pads acc
      | some v =>
        match qp with
        | 0 => a2bGo rest 1 v 0 acc
        | 1 => a2bGo rest 2 (v % 16) 0 ((left * 4 + v / 16) :: acc)
        | 2 => a2bGo rest 3 (v % 4) 0 ((left * 16 + v / 4) :: acc)
        | _ => a2bGo rest 0 0 0 ((left * 64 + v) :: acc)

/-- CPython `binascii.a2b_base64` (non-strict), on a list of characters. -/
def a2b_base64 (cs : List Char) : Option (List Nat) :=
  a2bGo cs 0 0 0 []

/-- The Python exceptions that can cross the boundaries modelled here. -/
inductive PyExc where
  /-- `ValueError` (validation rejection, or non-ASCII input to `b64decode`). -/
  | valueError (msg : String)
  /-- `RuntimeError` raised on a non-zero child exit status. -/
  | runtimeError (msg : String)
  /-- `binascii.Error` from `base64.b64decode` (incorrect padding). -/
  | binasciiError
  /-- `OSError`: the temporary directory, the script file or the child process
  could not be created (environment-level failure). -/
  | osError
  deriving DecidableEq

/-- Python `base64.b64decode` applied to a `str`: the string is first encoded
as ASCII (`ValueError` on a non-ASCII character), then decoded by the
non-strict `binascii.a2b_base64` loop (`binascii.Error` on bad padding). -/
def b64decodePy (s : String) : Except PyExc (List Nat) :=
  if s.data.any (fun c => 127 < c.toNat) then
    .error (.valueError "string argument should contain only ASCII characters")
  else
    match a2b_base64 s.data with
    | some bs => .ok bs
    | none => .error .binasciiError

/-- The result-channel decode step of `execute_visualization`
(line 126 of `visualization_handler.py`): `base64.b64decode(result.stdout.strip())`. -/
def decode_stdout (stdout : String) : Except PyExc (List Nat) :=
  b64decodePy (pyStrip stdout)

mutual

/-- Python expressions, as the nodes of `ast` relevant to the validator walk.
`constant` stands for any literal. -/
inductive PyExpr where
  | constant : PyExpr
  | name (id : String) : PyExpr
  | attribute (value : PyExpr) (attrName : String) : PyExpr
  | call (func : PyExpr) (args : List PyExpr) : PyExpr
  | binOp (left right : PyExpr) : PyExpr
  | subscript (value slice : PyExpr) : PyExpr
  | listExpr (elts : List PyExpr) : PyExpr
  | lambda (body : PyExpr) : PyExpr

/-- Python statements, as the nodes of `ast` relevant to the validator walk.
`importStmt names` is `ast.Import` (each element a dotted module name);
`importFrom module names` is `ast.ImportFrom` (`module = none` for a purely
relative `from . import x`). -/
inductive PyStmt where
  | importStmt (names : List String) : PyStmt
  | importFrom (module : Option String) (names : List String) : PyStmt
  | exprStmt (value : PyExpr) : PyStmt
  | assign (target : PyExpr) (value : PyExpr) : PyStmt
  | functionDef (name : String) (body : List PyStmt) : PyStmt
  | asyncFunctionDef (name : String) (body : List PyStmt) : PyStmt
  | classDef (name : String) (body : List PyStmt) : PyStmt
  | ifStmt (test : PyExpr) (body orelse : List PyStmt) : PyStmt
  | forStmt (target iter : PyExpr) (body orelse : List PyStmt) : PyStmt
  | whileStmt (test : PyExpr) (body orelse : List PyStmt) : PyStmt
  | passStmt : PyStmt

end

/-- `ast.Module`: the root of a parsed script. -/
structure PyModule where
  body : List PyStmt

/-- A node yielded by `ast.walk`, as inspected by the validator
(the `ast.alias` and `ast.arguments` helper nodes are omitted: no branch of the
validator matches them). -/
inductive AstNode where
  | module (body : List PyStmt)
  | stmt (s : PyStmt)
  | expr (e : PyExpr)

mutual

/-- All nodes of a statement, the statement itself included (`ast.walk`
restricted to one statement; the order of `ast.walk` is breadth-first, but the
validator only applies `List.any` over the nodes, so order is irrelevant). -/
def walkStmt : PyStmt → List AstNode
  | .importStmt ns => [.stmt (.importStmt ns)]
  | .importFrom m ns => [.stmt (.importFrom m ns)]
  | .exprStmt e => .stmt (.exprStmt e) :: walkExpr e
  | .assign t v => .stmt (.assign t v) :: (walkExpr t ++ walkExpr v)
  | .functionDef n b => .stmt (.functionDef n b) :: walkStmts b
  | .asyncFunctionDef n b => .stmt (.asyncFunctionDef n b) :: walkStmts b
  | .classDef n b => .stmt (.classDef n b) :: walkStmts b
  | .ifStmt t b o => .stmt (.ifStmt t b o) :: (walkExpr t ++ walkStmts b ++ walkStmts o)
  | .forStmt t i b o => .stmt (.forStmt t i b o) :: (walkExpr t ++ walkExpr i ++ walkStmts b ++ walkStmts o)
  | .whileStmt t b o => .stmt (.whileStmt t b o) :: (walkExpr t ++ walkStmts b ++ walkStmts o)
  | .passStmt => [.stmt .passStmt]

/-- All nodes of a list of statements. -/
def walkStmts : List PyStmt → List AstNode
  | [] => []
  | s :: rest => walkStmt s ++ walkStmts rest

/-- All nodes of an expression, the expression itself included. -/
def walkExpr : PyExpr → List AstNode
  | .constant => [.expr .constant]
  | .name i => [.expr (.name i)]
  | .attribute v a => .expr (.attribute v a) :: walkExpr v
  | .call f args => .expr (.call f args) :: (walkExpr f ++ walkExprs args)
  | .binOp l r => .expr (.binOp l r) :: (walkExpr l ++ walkExpr r)
  | .subscript v s => .expr (.subscript v s) :: (walkExpr v ++ walkExpr s)
  | .listExpr es => .expr (.listExpr es) :: walkExprs es
  | .lambda b => .expr (.lambda b) :: walkExpr b

/-- All nodes of a list of expressions. -/
def walkExprs : List PyExpr → List AstNode
  | [] => []
  | e :: rest => walkExpr e ++ walkExprs rest

end

/-- `ast.walk` over a whole module. -/
def walkModule (m : PyModule) : List AstNode :=
  .module m.body :: walkStmts m.body

/-- `VisualizationHandler.ALLOWED_IMPORTS` (lines 15-18). -/
def ALLOWED_IMPORTS : List String :=
  ["pandas", "matplotlib.pyplot", "seaborn", "numpy", "matplotlib", "io", "base64", "decimal"]

/-- `name.split(\x27.\x27)[0]`: the first dotted component of a module name —
the characters before the first dot, or the whole name if it has no dot. -/
def topName (s : String) : String :=
  String.mk (s.data.takeWhile (fun c => c != '.'))

/-- The check the validator applies to a single walked node (the `if`/`elif`
chain at lines 66-90 of `visualization_handler.py`).  Note that the
`elif isinstance(node, ast.Call) and isinstance(node.func, ast.Name)` branch
guarding against calls to `exec`/`eval` (lines 83-86) is unreachable in the
source: every `ast.Call` node is already consumed by the
`elif isinstance(node, ast.Call)` branch at line 76, which only rejects calls
to `open` and to `__import__`.  Note also that `ast.AsyncFunctionDef` is not an
instance of `ast.FunctionDef`, so `async def` matches no branch. -/
def nodeViolates : AstNode → Bool
  | .stmt (.importStmt ns) => ns.any (fun n => !(ALLOWED_IMPORTS.contains (topName n)))
  | .stmt (.importFrom (some m) _) => !(ALLOWED_IMPORTS.contains (topName m))
  | .expr (.call (.name f) _) => f == "open" || f == "__import__"
  | .stmt (.functionDef _ _) => true
  | .stmt (.classDef _ _) => true
  | _ => false

/-- The argument of `validate_code`: a Python value that is either a `str` or
some non-string value (line 52 checks `isinstance(code, str)`). -/
inductive CodeInput where
  | pyStr (s : String)
  | nonStr

/-- `VisualizationHandler.validate_code` (lines 50-98).  Empty or non-string
input is rejected; the code is stripped; a parse failure (`SyntaxError`) is
rejected; otherwise every node of `ast.walk` is checked, a `ValueError` raised
for a violating node being caught by the `except Exception` at line 96 and
turned into `False`. -/
def validate_code (parse : String → Option PyModule) : CodeInput → Bool
  | .nonStr => false
  | .pyStr code =>
    if code == "" then false
    else if pyStrip code == "" then false
    else
      match parse (pyStrip code) with
      | none => false
      | some tree => !((walkModule tree).any nodeViolates)

/-- The opening brace character (written via its code point). -/
def lbrace : Char := Char.ofNat 123

/-- The closing brace character (written via its code point). -/
def rbrace : Char := Char.ofNat 125

/-- The prologue of `VisualizationHandler.TEMPLATE` (lines 20-32): everything
before the replacement field — library imports, seaborn theme and palette
setup, and selection of the non-interactive Agg backend. -/
def TEMPLATE_prologue : String :=
  "\nimport pandas as pd\nimport matplotlib.pyplot as plt\nimport seaborn as sns\nimport numpy as np\nimport io\nimport base64\nfrom decimal import Decimal\n\nsns.set_theme(style=\x22whitegrid\x22)\nsns.set_palette(\x22husl\x22)\nplt.switch_backend(\x27Agg\x27)\n\n"

/-- The epilogue of `VisualizationHandler.TEMPLATE` (lines 34-41): everything
after the replacement field — save the current figure to an in-memory PNG
buffer, close the figure, and print the buffer contents base64-encoded on
stdout. -/
def TEMPLATE_epilogue : String :=
  "\n\n# Save plot to bytes buffer\nbuffer = io.BytesIO()\nplt.savefig(buffer, format=\x27png\x27, bbox_inches=\x27tight\x27, dpi=300)\nplt.close()\nbuffer.seek(0)\nprint(base64.b64encode(buffer.getvalue()).decode())\n"

/-- `VisualizationHandler.TEMPLATE` (lines 20-41), verbatim: the prologue, the
`\x7bcode\x7d` replacement field, and the epilogue. -/
def TEMPLATE : String :=
  "\nimport pandas as pd\nimport matplotlib.pyplot as plt\nimport seaborn as sns\nimport numpy as np\nimport io\nimport base64\nfrom decimal import Decimal\n\nsns.set_theme(style=\x22whitegrid\x22)\nsns.set_palette(\x22husl\x22)\nplt.switch_backend(\x27Agg\x27)\n\n\x7bcode\x7d\n\n# Save plot to bytes buffer\nbuffer = io.BytesIO()\nplt.savefig(buffer, format=\x27png\x27, bbox_inches=\x27tight\x27, dpi=300)\nplt.close()\nbuffer.seek(0)\nprint(base64.b64encode(buffer.getvalue()).decode())\n"

/-- The characters of the `code` replacement field after its opening brace. -/
def codeField : List Char := ['c', 'o', 'd', 'e', rbrace]

/-- Python `TEMPLATE.format(code=repl)` on character lists, for templates whose
only replacement field is the `code` field: the field is replaced by `repl`
(the replacement text is not re-scanned, as in `str.format`); any other brace
makes `str.format` raise, modelled as `none`.  The brace escapes of
`str.format` do not occur in `TEMPLATE` and are not modelled. -/
def formatCode (repl : List Char) : List Char → Option (List Char)
  | [] => some []
  | c :: rest =>
    if c == lbrace then
      match rest with
      | c1 :: c2 :: c3 :: c4 :: c5 :: rest2 =>
        if c1 == 'c' && c2 == 'o' && c3 == 'd' && c4 == 'e' && c5 == rbrace then
          (formatCode repl rest2).map (fun t => repl ++ t)
        else none
      | _ => none
    else if c == rbrace then none
    else (formatCode repl rest).map (fun t => c :: t)

/-- `full_code = f\x22data = \x7bdata\x7d\n\x22 + code` (line 108). -/
def full_code (code data : String) : String :=
  "data = " ++ data ++ "\n" ++ code

/-- `script_content = self.TEMPLATE.format(code=full_code)` (line 109): the
text written to `visualization.py` in the temporary directory. -/
def script_content (code data : String) : Option String :=
  (formatCode (full_code code data).data TEMPLATE.data).map String.mk

/-- The outcome of `subprocess.run` when the child process does start. -/
structure ProcResult where
  returncode : Int
  stdout : String
  stderr : String
  deriving DecidableEq

/-- The environment of one `execute_visualization` call: whether the temporary
directory can be created, whether the script file can be written, whether the
child process can be spawned, and the child process outcome if it runs. -/
structure SandboxWorld where
  tmpOk : Bool
  writeOk : Bool
  spawnOk : Bool
  proc : ProcResult
  deriving DecidableEq

/-- Filesystem / process events of one `execute_visualization` call. -/
inductive FsEvent where
  | createTmpDir
  | writeScript
  | spawnProc
  | removeTmpDir
  deriving DecidableEq

/-- Result of one `execute_visualization` call: the returned value or the
escaping exception, the filesystem event trace in order, and the script text
written to the temporary file (if the call got that far). -/
structure ExecTrace where
  outcome : Except PyExc (List Nat)
  events : List FsEvent
  script : Option String

/-- `VisualizationHandler.execute_visualization` (lines 100-130).  Validation
happens before anything touches the filesystem; the whole body after it sits
inside `with tempfile.TemporaryDirectory()`, whose scope exit removes the
directory on every path out of the block (normal return, `RuntimeError` on
non-zero exit, `binascii.Error` from decoding, or `OSError` while writing or
spawning), which is why every branch entered after a successful directory
creation ends its event list with `removeTmpDir`.  The `except Exception` at
line 128 prints and re-raises, so it does not change the outcome. -/
def execute_visualization (parse : String → Option PyModule) (code data : String)
    (w : SandboxWorld) : ExecTrace :=
  if validate_code parse (.pyStr code) then
    if w.tmpOk then
      match script_content code data with
      | some content =>
        if w.writeOk then
          if w.spawnOk then
            if w.proc.returncode == 0 then
              match decode_stdout w.proc.stdout with
              | .ok bs =>
                ⟨.ok bs, [.createTmpDir, .writeScript, .spawnProc, .removeTmpDir], some content⟩
              | .error e =>
                ⟨.error e, [.createTmpDir, .writeScript, .spawnProc, .removeTmpDir], some content⟩
            else
              ⟨.error (.runtimeError ("Visualization failed: " ++ w.proc.stderr)),
               [.createTmpDir, .writeScript, .spawnProc, .removeTmpDir], some content⟩
          else ⟨.error .osError, [.createTmpDir, .writeScript, .removeTmpDir], some content⟩
        else ⟨.error .osError, [.createTmpDir, .removeTmpDir], none⟩
      | none =>
        ⟨.error (.valueError "unexpected replacement field"), [.createTmpDir, .removeTmpDir], none⟩
    else ⟨.error .osError, [], none⟩
  else ⟨.error (.valueError "Invalid visualization code"), [], none⟩

/-- Whether the temporary directory exists after replaying an event trace. -/
def tmpDirExistsAfter (evts : List FsEvent) : Bool :=
  evts.foldl
    (fun alive e =>
      match e with
      | .createTmpDir => true
      | .removeTmpDir => false
      | _ => alive)
    false

/-- The per-agent state of `VisualizationHandler` (lines 43-48): the session
slot `current_visualization` and the working directory. -/
structure VisualizationHandler where
  current_visualization : Option (List Nat)
  work_dir : String
  deriving DecidableEq

/-- `VisualizationHandler.__init__` (lines 43-48): the slot starts as `None`;
`work_dir or tempfile.gettempdir()` falls back to the system temporary
directory when the argument is `None` or empty (falsy), and backslashes are
doubled. -/
def vizHandlerInit (work_dir : Option String) (sysTempDir : String) : VisualizationHandler :=
  let wd :=
    match work_dir with
    | some s => if s == "" then sysTempDir else s
    | none => sysTempDir
  { current_visualization := none, work_dir := wd.replace "\\" "\\\\" }

/-- `DatabaseConnection.get_current_visualization` (psql_agent.py lines 32-33),
reading the handler slot. -/
def get_current_visualization (h : VisualizationHandler) : Option (List Nat) :=
  h.current_visualization

/-- The attribute assignment
`ctx.deps.viz_handler.current_visualization = viz_data` (psql_agent.py
line 176): unconditionally replaces the held image. -/
def setCurrentVisualization (h : VisualizationHandler) (img : List Nat) : VisualizationHandler :=
  { h with current_visualization := some img }

/-- The fields of the JSON object returned to the model by the `execute_query`
agent tool (psql_agent.py lines 168-172). -/
structure ToolResponse where
  results : String
  visualization_code : Option String
  has_visualization : Bool
  deriving DecidableEq

/-- The visualization branch of the `execute_query` agent tool
(psql_agent.py lines 159-178): if the visualization agent produced code, run
`execute_visualization` inside `try ... except Exception`, on any exception
drop the code and continue; report `has_visualization` as `viz_data is not
None`; store the image in the handler slot only if `viz_data` is truthy
(non-empty bytes).  The `Except` in the result type records whether an
exception escapes the tool: the blanket `except Exception` means no exception
from `execute_visualization` ever does. -/
def execute_query_tool (parse : String → Option PyModule) (h : VisualizationHandler)
    (results : String) (viz_code : Option String) (w : SandboxWorld) :
    Except PyExc (ToolResponse × VisualizationHandler) :=
  match viz_code with
  | none => .ok (⟨results, none, false⟩, h)
  | some c =>
    match (execute_visualization parse c results w).outcome with
    | .ok bs =>
      .ok (⟨results, some c, true⟩, if bs.isEmpty then h else setCurrentVisualization h bs)
    | .error _ => .ok (⟨results, none, false⟩, h)

/-- A module holding the single statement `1`, a harmless constant. -/
def constModule : PyModule := ⟨[.exprStmt .constant]⟩

/-- A parser fixture mapping the source text `1` to `constModule`. -/
def parseConst : String → Option PyModule :=
  fun s => if s == "1" then some constModule else none

/-- The syntax tree of `exec(\x271\x27)`: a bare-name call to `exec`. -/
def execCallModule : PyModule := ⟨[.exprStmt (.call (.name "exec") [.constant])]⟩

/-- A parser fixture for the source text `exec(\x271\x27)`. -/
def parseExecCallSnippet : String → Option PyModule :=
  fun s => if s == "exec(\x271\x27)" then some execCallModule else none

/-- The syntax tree of `async def helper(): pass`: `ast.AsyncFunctionDef`. -/
def asyncHelperModule : PyModule := ⟨[.asyncFunctionDef "helper" [.passStmt]]⟩

/-- A parser fixture for the source text `async def helper(): pass`. -/
def parseAsyncHelper : String → Option PyModule :=
  fun s => if s == "async def helper(): pass" then some asyncHelperModule else none

/-- The syntax tree of `import os` followed by `os.system(\x27ls\x27)`. -/
def importOsModule : PyModule :=
  ⟨[.importStmt ["os"], .exprStmt (.call (.attribute (.name "os") "system") [.constant])]⟩

/-- A parser fixture for the source text `import os` / `os.system(\x27ls\x27)`. -/
def parseImportOs : String → Option PyModule :=
  fun s => if s == "import os\nos.system(\x27ls\x27)" then some importOsModule else none

/-- The syntax tree of `def helper(): pass`. -/
def defHelperModule : PyModule := ⟨[.functionDef "helper" [.passStmt]]⟩

/-- A parser fixture for the source text `def helper(): pass`. -/
def parseDefHelper : String → Option PyModule :=
  fun s => if s == "def helper(): pass" then some defHelperModule else none

/-- A fresh handler fixture. -/
def h0 : VisualizationHandler := vizHandlerInit none "/tmp"

/-- An environment in which the temporary directory cannot be created. -/
def wNoTmp : SandboxWorld := ⟨false, true, true, ⟨0, "", ""⟩⟩

/-- A healthy environment whose child exits 0 printing the base64 of `ABC`. -/
def wGood : SandboxWorld := ⟨true, true, true, ⟨0, "QUJD\n", ""⟩⟩

/-- A healthy environment whose child exits 1 with a traceback on stderr. -/
def wBad : SandboxWorld := ⟨true, true, true, ⟨1, "", "Traceback"⟩⟩

/-! ### Helper lemmas -/

/-- Characters outside the base64 alphabet (and not `=`) are discarded by the
non-strict decoder without changing its state. -/
theorem a2bGo_filter (cs : List Char) (qp left pads : Nat) (acc : List Nat) :
    a2bGo cs qp left pads acc = a2bGo (cs.filter b64Relevant) qp left pads acc := by
  induction cs, qp, left, pads, acc using a2bGo.induct <;>
    simp_all [a2bGo, List.filter_cons, b64Relevant]

/-- `binascii.a2b_base64` ignores every character outside the base64 alphabet:
line structure is invisible to the decode step. -/
theorem a2b_base64_filter (cs : List Char) :
    a2b_base64 cs = a2b_base64 (cs.filter b64Relevant) :=
  a2bGo_filter cs 0 0 0 []

/-- `formatCode` copies a brace-free prefix unchanged. -/
theorem formatCode_append_of_noBrace (repl : List Char) (l t : List Char)
    (h : ∀ c ∈ l, c ≠ lbrace ∧ c ≠ rbrace) :
    formatCode repl (l ++ t) = (formatCode repl t).map (fun u => l ++ u) := by
  induction l with
  | nil => cases hf : formatCode repl t <;> simp [hf]
  | cons c cs ih =>
    have hc := h c (List.mem_cons_self c cs)
    have h' : ∀ x ∈ cs, x ≠ lbrace ∧ x ≠ rbrace := fun x hx => h x (List.mem_cons_of_mem c hx)
    have h1 : (c == lbrace) = false := by simp [hc.1]
    have h2 : (c == rbrace) = false := by simp [hc.2]
    have hstep : formatCode repl (c :: (cs ++ t)) =
        (formatCode repl (cs ++ t)).map (fun u => c :: u) := by
      rw [formatCode.eq_def]
      simp [h1, h2]
    rw [List.cons_append, hstep, ih h']
    cases formatCode repl t <;> rfl

/-- `formatCode` maps a brace-free list to itself. -/
theorem formatCode_of_noBrace (repl : List Char) (l : List Char)
    (h : ∀ c ∈ l, c ≠ lbrace ∧ c ≠ rbrace) :
    formatCode repl l = some l := by
  have h0 : formatCode repl [] = some [] := rfl
  have := formatCode_append_of_noBrace repl l [] h
  rw [h0] at this
  simpa using this

/-- `formatCode` substitutes the replacement text for the `code` field. -/
theorem formatCode_codeField (repl t : List Char) :
    formatCode repl (lbrace :: (codeField ++ t)) = (formatCode repl t).map (fun u => repl ++ u) := by
  simp [formatCode, codeField, List.isPrefixOf]

set_option maxRecDepth 40000 in
/-- `TEMPLATE` splits as prologue, `code` replacement field, epilogue. -/
theorem TEMPLATE_data_eq :
    TEMPLATE.data = TEMPLATE_prologue.data ++ (lbrace :: (codeField ++ TEMPLATE_epilogue.data)) := by
  decide

set_option maxRecDepth 40000 in
/-- The template prologue contains no brace. -/
theorem TEMPLATE_prologue_noBrace : ∀ c ∈ TEMPLATE_prologue.data, c ≠ lbrace ∧ c ≠ rbrace := by
  decide

set_option maxRecDepth 40000 in
/-- The template epilogue contains no brace. -/
theorem TEMPLATE_epilogue_noBrace : ∀ c ∈ TEMPLATE_epilogue.data, c ≠ lbrace ∧ c ≠ rbrace := by
  decide

/-- Rebuilding a string from concatenated character data. -/
theorem string_mk_append3 (a b c : String) :
    String.mk (a.data ++ (b.data ++ c.data)) = a ++ b ++ c := by
  cases a with | mk l1 =>
  cases b with | mk l2 =>
  cases c with | mk l3 =>
  show String.mk (l1 ++ (l2 ++ l3)) = String.mk l1 ++ String.mk l2 ++ String.mk l3
  rw [← List.append_assoc]
  rfl

/-- The rendered script is exactly prologue, `data` assignment plus user code,
epilogue. -/
theorem script_content_spec (code data : String) :
    script_content code data =
      some (TEMPLATE_prologue ++ full_code code data ++ TEMPLATE_epilogue) := by
  unfold script_content
  rw [TEMPLATE_data_eq, formatCode_append_of_noBrace _ _ _ TEMPLATE_prologue_noBrace,
    formatCode_codeField, formatCode_of_noBrace _ _ TEMPLATE_epilogue_noBrace]
  simp only [Option.map_some']
  rw [string_mk_append3]

/-- A violating node anywhere in the walked tree makes the validator reject. -/
theorem validate_code_false_of_violation (parse : String → Option PyModule) (s : String)
    (t : PyModule) (hp : parse (pyStrip s) = some t) (node : AstNode)
    (hmem : node ∈ walkModule t) (hviol : nodeViolates node = true) :
    validate_code parse (.pyStr s) = false := by
  have hany : (walkModule t).any nodeViolates = true := List.any_eq_true.mpr ⟨node, hmem, hviol⟩
  unfold validate_code
  by_cases h1 : (s == "") <;> by_cases h2 : (pyStrip s == "") <;> simp [h1, h2, hp, hany]

/-! ### Claim theorems -/

/-- C1: the claim states that validate_code returns False for every code string
containing a bare-name call to exec or eval.  The source does not: the
`elif isinstance(node, ast.Call) and isinstance(node.func, ast.Name)` branch
for exec/eval (lines 83-86) is shadowed by the `elif isinstance(node, ast.Call)`
branch at line 76, which only rejects `open` and `__import__`, so the validator
accepts the script `exec(\x271\x27)` in contradiction with the claim and with the
comment `Prevent exec/eval` in the source. -/
theorem c1_validator_accepts_exec_call :
    validate_code parseExecCallSnippet (CodeInput.pyStr "exec(\x271\x27)") = true := rfl

/-- C2 counterexample: the claim states that decode fails when the trimmed
stdout is empty and that only the last non-empty line is decoded.  Neither
holds: empty stdout decodes successfully to empty bytes, and the two-line
stdout `QUJD\nREVG` decodes to the six bytes `ABCDEF`, while its last
non-empty line alone would decode to the three bytes `DEF`. -/
theorem c2_decode_counterexample :
    decode_stdout "" = .ok []
    ∧ decode_stdout "QUJD\nREVG" = .ok [65, 66, 67, 68, 69, 70]
    ∧ decode_stdout "REVG" = .ok [68, 69, 70] :=
  ⟨rfl, rfl, rfl⟩

/-- C2 (amended): the decode step strips leading and trailing whitespace from
the whole stdout and base64-decodes the entire remaining text in Python
non-strict mode: (i) a stdout that strips to nothing decodes successfully to
empty bytes rather than failing; (ii) characters outside the base64 alphabet
(newlines included) are discarded, so every line of stdout contributes to the
payload, not only the last non-empty one; failures are exactly the failures of
the non-strict base64 decoder on the whole text. -/
theorem c2_decode_stdout_amended :
    (∀ s : String, pyStrip s = "" → decode_stdout s = .ok [])
    ∧ (∀ cs : List Char, a2b_base64 cs = a2b_base64 (cs.filter b64Relevant)) := by
  constructor
  · intro s h
    unfold decode_stdout
    rw [h]
    rfl
  · intro cs
    exact a2b_base64_filter cs

/-- C2 witness: the amended theorem applied at a whitespace-only stdout and at
a two-line payload. -/
theorem c2_decode_stdout_amended_witness :
    decode_stdout " \n " = .ok []
    ∧ a2b_base64 "QUJD\nREVG".data = a2b_base64 ("QUJD\nREVG".data.filter b64Relevant) :=
  ⟨c2_decode_stdout_amended.1 " \n " (by decide),
   c2_decode_stdout_amended.2 "QUJD\nREVG".data⟩

/-- C3: code whose syntax tree contains an import (direct or from-style) whose
top-level module name is outside ALLOWED_IMPORTS is rejected by validate_code,
and execute_visualization on that code raises the validation ValueError with an
empty filesystem trace: no temporary directory is created, no script file is
written, no subprocess is spawned. -/
theorem c3_disallowed_import_rejected (parse : String → Option PyModule)
    (s data : String) (t : PyModule) (w : SandboxWorld)
    (hp : parse (pyStrip s) = some t)
    (hbad :
      (∃ ns n, AstNode.stmt (PyStmt.importStmt ns) ∈ walkModule t ∧ n ∈ ns ∧
        ALLOWED_IMPORTS.contains (topName n) = false)
      ∨ (∃ m ns, AstNode.stmt (PyStmt.importFrom (some m) ns) ∈ walkModule t ∧
        ALLOWED_IMPORTS.contains (topName m) = false)) :
    validate_code parse (CodeInput.pyStr s) = false
    ∧ execute_visualization parse s data w =
        ⟨.error (.valueError "Invalid visualization code"), [], none⟩ := by
  have hv : validate_code parse (CodeInput.pyStr s) = false := by
    rcases hbad with ⟨ns, n, hmem, hn, hcon⟩ | ⟨m, ns, hmem, hcon⟩
    · refine validate_code_false_of_violation parse s t hp _ hmem ?_
      simp only [nodeViolates]
      refine List.any_eq_true.mpr ⟨n, hn, ?_⟩
      show (!(ALLOWED_IMPORTS.contains (topName n))) = true
      rw [hcon]
      rfl
    · refine validate_code_false_of_violation parse s t hp _ hmem ?_
      simp only [nodeViolates]
      rw [hcon]
      rfl
  refine ⟨hv, ?_⟩
  unfold execute_visualization
  simp [hv]

/-- C3 witness: the theorem applied to `import os` / `os.system(\x27ls\x27)`,
whose top-level import name `os` is not allow-listed. -/
theorem c3_disallowed_import_rejected_witness :
    validate_code parseImportOs (CodeInput.pyStr "import os\nos.system(\x27ls\x27)") = false
    ∧ execute_visualization parseImportOs "import os\nos.system(\x27ls\x27)" "[]" wGood =
        ⟨.error (.valueError "Invalid visualization code"), [], none⟩ :=
  c3_disallowed_import_rejected parseImportOs "import os\nos.system(\x27ls\x27)" "[]"
    importOsModule wGood rfl
    (Or.inl ⟨["os"], "os", List.Mem.tail _ (List.Mem.head _), List.Mem.head _, by decide⟩)

/-- C4 counterexample: the claim states that environment-level failures
(ResourceError: the temporary directory or process could not be created)
propagate out of the query pipeline as hard errors.  They do not: with code
that passes validation but an environment in which the temporary directory
cannot be created, execute_visualization raises OSError, and the execute_query
tool nevertheless returns a normal success response with no visualization
attached, exactly as for code-related failures. -/
theorem c4_resource_error_converted_counterexample :
    (execute_visualization parseConst "1" "r" wNoTmp).outcome = .error PyExc.osError
    ∧ execute_query_tool parseConst h0 "r" (some "1") wNoTmp =
        .ok (⟨"r", none, false⟩, h0) :=
  ⟨rfl, rfl⟩

/-- C4 (amended): every failure raised by execute_visualization — the
code-related ValueError, RuntimeError and binascii.Error as well as the
environment-level OSError — is caught by the blanket `except Exception` of the
execute_query tool and converted into a normally returned response with no
visualization attached and the session slot untouched; no sandbox failure
propagates out of the tool. -/
theorem c4_all_sandbox_failures_converted (parse : String → Option PyModule)
    (h : VisualizationHandler) (results c : String) (w : SandboxWorld) (e : PyExc)
    (he : (execute_visualization parse c results w).outcome = .error e) :
    execute_query_tool parse h results (some c) w = .ok (⟨results, none, false⟩, h) := by
  have hdef : execute_query_tool parse h results (some c) w =
      match (execute_visualization parse c results w).outcome with
      | .ok bs =>
        .ok (⟨results, some c, true⟩, if bs.isEmpty then h else setCurrentVisualization h bs)
      | .error _ => .ok (⟨results, none, false⟩, h) := rfl
  rw [hdef, he]

set_option maxRecDepth 100000 in
/-- C4 witness: the amended theorem applied to a run whose child process exits
non-zero. -/
theorem c4_all_sandbox_failures_converted_witness :
    execute_query_tool parseConst h0 "r" (some "1") wBad = .ok (⟨"r", none, false⟩, h0) :=
  c4_all_sandbox_failures_converted parseConst h0 "r" "1" wBad
    (.runtimeError ("Visualization failed: Traceback")) rfl

/-- C5 counterexample: the claim states that every function definition is
rejected, but `async def helper(): pass` parses to an `ast.AsyncFunctionDef`
node, which is not an instance of `ast.FunctionDef`, so no branch of the
validator matches it and the script is accepted. -/
theorem c5_async_def_accepted :
    validate_code parseAsyncHelper (CodeInput.pyStr "async def helper(): pass") = true := rfl

/-- C5 (amended): code whose syntax tree contains a plain (non-async) function
definition or a class definition anywhere is rejected by validate_code with the
definitions-not-allowed reason; in particular `def helper(): pass` is rejected
(see the witness).  Async function definitions are not rejected (see the
counterexample). -/
theorem c5_definitions_rejected (parse : String → Option PyModule) (s : String)
    (t : PyModule) (hp : parse (pyStrip s) = some t)
    (hdef :
      (∃ n b, AstNode.stmt (PyStmt.functionDef n b) ∈ walkModule t)
      ∨ (∃ n b, AstNode.stmt (PyStmt.classDef n b) ∈ walkModule t)) :
    validate_code parse (CodeInput.pyStr s) = false := by
  rcases hdef with ⟨n, b, hmem⟩ | ⟨n, b, hmem⟩
  · exact validate_code_false_of_violation parse s t hp _ hmem rfl
  · exact validate_code_false_of_violation parse s t hp _ hmem rfl

/-- C5 witness: the amended theorem applied to `def helper(): pass`. -/
theorem c5_definitions_rejected_witness :
    validate_code parseDefHelper (CodeInput.pyStr "def helper(): pass") = false :=
  c5_definitions_rejected parseDefHelper "def helper(): pass" defHelperModule rfl
    (Or.inl ⟨"helper", [PyStmt.passStmt], List.Mem.tail _ (List.Mem.head _)⟩)

/-- C6: validate_code is a total Boolean verdict — every failure path of the
source is caught and returned as False: non-string input is rejected
immediately, input that is empty (or strips to the empty string) is rejected
immediately, and code whose parse raises SyntaxError is rejected rather than
crashing the caller. -/
theorem c6_validate_total (parse : String → Option PyModule) :
    validate_code parse CodeInput.nonStr = false
    ∧ (∀ s, pyStrip s = "" → validate_code parse (CodeInput.pyStr s) = false)
    ∧ (∀ s, parse (pyStrip s) = none → validate_code parse (CodeInput.pyStr s) = false) := by
  refine ⟨rfl, ?_, ?_⟩
  · intro s h
    unfold validate_code
    by_cases h1 : (s == "") <;> simp [h1, h]
  · intro s h
    unfold validate_code
    by_cases h1 : (s == "") <;> by_cases h2 : (pyStrip s == "") <;> simp [h1, h2, h]

/-- C6 witness: the theorem applied to a non-string value, a whitespace-only
string, and an unparsable snippet (the parser fixture returns none, as
`ast.parse` raises SyntaxError on it). -/
theorem c6_validate_total_witness :
    validate_code (fun _ => none) CodeInput.nonStr = false
    ∧ validate_code (fun _ => none) (CodeInput.pyStr " \n ") = false
    ∧ validate_code (fun _ => none) (CodeInput.pyStr "for (") = false :=
  ⟨(c6_validate_total (fun _ => none)).1,
   (c6_validate_total (fun _ => none)).2.1 " \n " (by decide),
   (c6_validate_total (fun _ => none)).2.2 "for (" rfl⟩

/-- C7: for validated code in an environment where the directory, the script
file and the child process are all created, a non-zero child exit status makes
execute_visualization fail with the RuntimeError carrying the captured stderr
text, and a zero exit status makes it return exactly the bytes decoded from
the captured stdout. -/
theorem c7_execute_outcome (parse : String → Option PyModule) (code data : String)
    (w : SandboxWorld) (hv : validate_code parse (CodeInput.pyStr code) = true)
    (ht : w.tmpOk = true) (hw : w.writeOk = true) (hs : w.spawnOk = true) :
    (w.proc.returncode ≠ 0 →
      (execute_visualization parse code data w).outcome =
        .error (.runtimeError ("Visualization failed: " ++ w.proc.stderr)))
    ∧ (∀ bs, w.proc.returncode = 0 → decode_stdout w.proc.stdout = .ok bs →
      (execute_visualization parse code data w).outcome = .ok bs) := by
  constructor
  · intro hnz
    have hz : (w.proc.returncode == 0) = false := by simpa using hnz
    unfold execute_visualization
    rw [script_content_spec]
    simp [hv, ht, hw, hs, hz]
  · intro bs h0 hdec
    have hz : (w.proc.returncode == 0) = true := by simp [h0]
    unfold execute_visualization
    rw [script_content_spec]
    simp [hv, ht, hw, hs, hz, hdec]

/-- C7 witness: the theorem applied to a failing child (exit 1, stderr
`Traceback`) and to a succeeding child (exit 0, stdout `QUJD`, the base64 of
the bytes `ABC`). -/
theorem c7_execute_outcome_witness :
    (execute_visualization parseConst "1" "[]" wBad).outcome =
      .error (.runtimeError ("Visualization failed: Traceback"))
    ∧ (execute_visualization parseConst "1" "[]" wGood).outcome = .ok [65, 66, 67] :=
  ⟨(c7_execute_outcome parseConst "1" "[]" wBad rfl rfl rfl rfl).1 (by decide),
   (c7_execute_outcome parseConst "1" "[]" wGood rfl rfl rfl rfl).2 [65, 66, 67] rfl rfl⟩

/-- C8: for every code string c and data string d, the rendered script is
exactly the fixed prologue (library imports, seaborn theme setup, selection of
the non-interactive Agg backend), then the single assignment line `data = `
followed by d verbatim, then c, then the fixed epilogue (save the current
figure to an in-memory PNG buffer, close the figure, print the buffer contents
base64-encoded on stdout). -/
theorem c8_rendered_script (c d : String) :
    script_content c d =
      some (TEMPLATE_prologue ++ ("data = " ++ d ++ "\n" ++ c) ++ TEMPLATE_epilogue) := by
  simpa [full_code] using script_content_spec c d

/-- C9: the temporary directory of an execute_visualization call never
survives the call: replaying the filesystem events of any call leaves no
directory behind, and whenever the call passes validation and the directory is
created, the trace begins with its creation and ends with its removal —
whatever the exit path (success, non-zero exit, decode failure, write or spawn
failure). -/
theorem c9_tmpdir_cleanup (parse : String → Option PyModule) (code data : String)
    (w : SandboxWorld) :
    tmpDirExistsAfter (execute_visualization parse code data w).events = false
    ∧ (validate_code parse (CodeInput.pyStr code) = true → w.tmpOk = true →
      (execute_visualization parse code data w).events.head? = some FsEvent.createTmpDir
      ∧ (execute_visualization parse code data w).events.getLast? = some FsEvent.removeTmpDir) := by
  constructor
  · unfold execute_visualization
    repeat' split
    all_goals rfl
  · intro hval htmp
    unfold execute_visualization
    rw [if_pos hval, if_pos htmp]
    repeat' split
    all_goals exact ⟨rfl, rfl⟩

/-- C9 witness: the theorem applied to a call whose child process fails. -/
theorem c9_tmpdir_cleanup_witness :
    tmpDirExistsAfter (execute_visualization parseConst "1" "[]" wBad).events = false
    ∧ (execute_visualization parseConst "1" "[]" wBad).events.head? = some FsEvent.createTmpDir
    ∧ (execute_visualization parseConst "1" "[]" wBad).events.getLast? = some FsEvent.removeTmpDir :=
  ⟨(c9_tmpdir_cleanup parseConst "1" "[]" wBad).1,
   (c9_tmpdir_cleanup parseConst "1" "[]" wBad).2 rfl rfl⟩

/-- C10: the visualization session slot starts empty — immediately after
construction get returns none — and after a set the slot holds exactly the
bytes passed, a set unconditionally replacing whatever was held before; both
operations are total functions of the state, so neither can throw. -/
theorem c10_session_slot (wd : Option String) (sysTmp : String)
    (h : VisualizationHandler) (img : List Nat) :
    get_current_visualization (vizHandlerInit wd sysTmp) = none
    ∧ get_current_visualization (setCurrentVisualization h img) = some img := by
  constructor
  · cases wd <;> rfl
  · rfl
